import Mathlib

/-!
Verification of the migration-assessment scripts
(`scripts/assess_migration.py`, `scripts/generate_reports.py`).

The Python code is shallowly embedded: every scoring rule becomes a Lean
function over a `HostFacts` record (the per-host fact dictionary), Python
`int(...)` parsing failures become `Except.error`, Python floats are
modelled as exact rationals (`ℚ`), and the wall clock (`datetime.now()`)
is passed in explicitly as a string argument.
-/

namespace MigrationAssess

/-- Model of Python `int(s)` on a string: strip surrounding whitespace,
then parse an optionally signed decimal integer; `none` models the
`ValueError` raised on any other input. -/
def pyInt? (s : String) : Option Int :=
  let cs := s.toList.dropWhile Char.isWhitespace
  let cs := (cs.reverse.dropWhile Char.isWhitespace).reverse
  match cs with
  | [] => none
  | c :: rest =>
    let signed : Bool × List Char :=
      if c = '-' then (true, rest)
      else if c = '+' then (false, rest)
      else (false, c :: rest)
    if signed.2 ≠ [] ∧ signed.2.all Char.isDigit then
      let n := signed.2.foldl (fun acc d => 10 * acc + (d.toNat - Char.toNat '0')) 0
      some (if signed.1 then -(n : Int) else (n : Int))
    else none

/-- Split a character list at every occurrence of `sep`
(Python `str.split(sep)` for a one-character separator: splitting the
empty string gives one empty field). -/
def splitOnChar (sep : Char) : List Char → List (List Char)
  | [] => [[]]
  | c :: rest =>
    if c = sep then [] :: splitOnChar sep rest
    else
      match splitOnChar sep rest with
      | [] => [[c]]
      | h :: t => (c :: h) :: t

/-- Model of Python `s.split('|')` and friends. -/
def pySplit (s : String) (sep : Char) : List String :=
  (splitOnChar sep s.toList).map (fun cs => String.mk cs)

/-- Model of Python `s.lower()` (the deny-list entries are all ASCII). -/
def pyLower (s : String) : String :=
  String.mk (s.toList.map Char.toLower)

/-- Whether `pat` occurs as a contiguous subsequence of `hay`
(helper for Python's substring `in` operator). -/
def containsSeq (pat : List Char) : List Char → Bool
  | [] => pat.isPrefixOf []
  | c :: t => pat.isPrefixOf (c :: t) || containsSeq pat t

/-- Model of Python's `needle in haystack` substring test. -/
def substrIn (needle haystack : String) : Bool :=
  containsSeq needle.toList haystack.toList

/-- One host's collected facts (`system` dict in `assess_migration.py`).
Every field is optional, mirroring `system.get(key, default)` access;
the numeric fields hold integers as produced by the fact collector. -/
structure HostFacts where
  hostname : Option String := none
  fqdn : Option String := none
  os_family : Option String := none
  distribution : Option String := none
  distribution_version : Option String := none
  distribution_major_version : Option String := none
  memtotal_mb : Option Int := none
  processor_cores : Option Int := none
  packages : Option (List String) := none
  enabled_services : Option (List String) := none
  kernel_modules : Option (List String) := none
deriving DecidableEq, Repr, Inhabited

/-- One category's assessment dict
(`{'score': ..., 'weight': ..., 'weighted_score': ..., 'issues': ...}`). -/
structure CategoryAssessment where
  score : Int
  weight : Int
  weighted_score : ℚ
  issues : List String
deriving DecidableEq, Repr, Inhabited

/-- `MigrationAssessment.WEIGHTS` (fixed category weights). -/
def WEIGHTS : List (String × Int) :=
  [("os_version", 30),
   ("package_compatibility", 25),
   ("hardware", 20),
   ("services", 15),
   ("kernel_modules", 10)]

/-- Dictionary lookup into `WEIGHTS` (keys are always present in the code). -/
def weightOf (category : String) : Int :=
  ((WEIGHTS.lookup category).getD 0)

/-- `MigrationAssessment.PROBLEMATIC_PACKAGES`. -/
def PROBLEMATIC_PACKAGES : List String :=
  ["python2", "python-", "python2.7",
   "mysql-server-5.5", "mysql-server-5.6",
   "postgresql-9", "php5", "php-5",
   "openssl-1.0", "iptables"]

/-- `MigrationAssessment.PROBLEMATIC_SERVICES`. -/
def PROBLEMATIC_SERVICES : List String :=
  ["network.service", "iptables.service"]

/-- `normalize_os_family`. -/
def normalizeOsFamily (os_family distribution : String) : String :=
  if os_family = "RedHat" ∨ os_family = "Fedora" then "RedHat"
  else if os_family = "Debian" ∨ os_family = "Ubuntu" then "Debian"
  else os_family

/-- Result of `normalize_package_name`. -/
structure PkgInfo where
  name : String
  version : String
  arch : String
deriving DecidableEq, Repr

/-- `normalize_package_name`: split the raw descriptor on `|` per OS family;
on too few fields (or an unrecognized family) fall through to treating the
whole line as the name with version/arch `"unknown"`. -/
def normalizePackageName (package_line : String) (os_family : String) : PkgInfo :=
  if os_family = "RedHat" then
    let parts := pySplit package_line '|'
    if parts.length ≥ 3 then
      { name := parts.getD 0 "",
        version := parts.getD 1 "" ++ "-" ++ parts.getD 2 "",
        arch := if parts.length > 3 then parts.getD 3 "" else "unknown" }
    else
      { name := package_line, version := "unknown", arch := "unknown" }
  else if os_family = "Debian" then
    let parts := pySplit package_line '|'
    if parts.length ≥ 2 then
      { name := parts.getD 0 "",
        version := parts.getD 1 "",
        arch := if parts.length > 2 then parts.getD 2 "" else "unknown" }
    else
      { name := package_line, version := "unknown", arch := "unknown" }
  else
    { name := package_line, version := "unknown", arch := "unknown" }

/-- Build the per-category result dict: `weighted_score = score*weight/100`
(true division, modelled exactly in `ℚ`). -/
def mkCat (score : Int) (weight : Int) (issues : List String) : CategoryAssessment :=
  { score := score, weight := weight,
    weighted_score := ((score * weight : Int) : ℚ) / 100,
    issues := issues }

/-- `assess_os_version_risk`. The Debian branch calls
`int(major_version)`; a parse failure is the propagated `ValueError`. -/
def assessOsVersionRisk (sys : HostFacts) : Except String CategoryAssessment :=
  let distribution := sys.distribution.getD ""
  let version := sys.distribution_version.getD ""
  let major_version := sys.distribution_major_version.getD ""
  let w := weightOf "os_version"
  if distribution = "CentOS" ∧ (major_version = "6" ∨ major_version = "7") then
    .ok (mkCat 90 w ["CentOS " ++ major_version ++ " is EOL or near EOL - High migration priority"])
  else if distribution = "Ubuntu" ∧ (major_version = "14" ∨ major_version = "16" ∨ major_version = "18") then
    .ok (mkCat 80 w ["Ubuntu " ++ version ++ " is EOL or near EOL"])
  else if (distribution = "RedHat" ∨ distribution = "Red Hat Enterprise Linux") ∧ (major_version = "6" ∨ major_version = "7") then
    .ok (mkCat 70 w ["RHEL " ++ major_version ++ " migration recommended"])
  else if distribution = "Debian" then
    match pyInt? major_version with
    | none => .error ("invalid literal for int() with base 10: " ++ major_version)
    | some n =>
      if n < 10 then
        .ok (mkCat 75 w ["Debian " ++ major_version ++ " is outdated"])
      else
        .ok (mkCat 20 w ["OS version is relatively current"])
  else
    .ok (mkCat 20 w ["OS version is relatively current"])

/-- `assess_package_compatibility`: inner double loop collecting one
`"name (version)"` entry per (package, deny-list fragment) match. -/
def assessPackageCompatibility (sys : HostFacts) : CategoryAssessment :=
  let packages := sys.packages.getD []
  let os_family := normalizeOsFamily (sys.os_family.getD "") (sys.distribution.getD "")
  let problematic_found := packages.foldl
    (fun acc pkg_line =>
      let pkg := normalizePackageName pkg_line os_family
      let pkg_name := pyLower pkg.name
      acc ++ (PROBLEMATIC_PACKAGES.filter (fun p => substrIn p pkg_name)).map
        (fun _ => pkg.name ++ " (" ++ pkg.version ++ ")"))
    []
  let w := weightOf "package_compatibility"
  if problematic_found.isEmpty then
    mkCat 20 w ["No major package compatibility concerns detected"]
  else
    mkCat (min 100 (40 + 10 * (problematic_found.length : Int))) w
      (("Found " ++ toString problematic_found.length ++ " potentially problematic packages")
        :: problematic_found.take 5)

/-- `assess_hardware_risk`: additive penalties, cap at 100,
floor the capped total to 15 when it is below 30. Note the defaults:
`int(system.get('memtotal_mb', 0))` but `int(system.get('processor_cores', 1))`. -/
def assessHardwareRisk (sys : HostFacts) : CategoryAssessment :=
  let memory_mb := sys.memtotal_mb.getD 0
  let processor_cores := sys.processor_cores.getD 1
  let memPart : Int × String :=
    if memory_mb < 2048 then
      (40, "Low memory: " ++ toString memory_mb ++ "MB (minimum 2GB recommended for RHEL 8/9)")
    else if memory_mb < 4096 then
      (20, "Moderate memory: " ++ toString memory_mb ++ "MB (4GB+ recommended)")
    else
      (0, "Adequate memory: " ++ toString memory_mb ++ "MB")
  let cpuPart : Int × String :=
    if processor_cores < 2 then
      (20, "Limited CPU cores: " ++ toString processor_cores ++ " (2+ recommended)")
    else
      (0, "Adequate CPU cores: " ++ toString processor_cores)
  let risk_score := min 100 (memPart.1 + cpuPart.1)
  let risk_score := if risk_score < 30 then 15 else risk_score
  mkCat risk_score (weightOf "hardware") [memPart.2, cpuPart.2]

/-- `assess_services_risk`: substring match of each enabled service against
the deny-list; every matched service name is appended (no truncation). -/
def assessServicesRisk (sys : HostFacts) : CategoryAssessment :=
  let services := sys.enabled_services.getD []
  let problematic_found := services.foldl
    (fun acc service =>
      acc ++ (PROBLEMATIC_SERVICES.filter (fun p => substrIn p service)).map
        (fun _ => service))
    []
  let w := weightOf "services"
  if problematic_found.isEmpty then
    mkCat 15 w ["No critical service compatibility issues detected"]
  else
    mkCat (min 100 (50 + 15 * (problematic_found.length : Int))) w
      (("Found " ++ toString problematic_found.length ++ " services requiring attention")
        :: problematic_found)

/-- `assess_kernel_modules_risk`: count-based bucketing. -/
def assessKernelModulesRisk (sys : HostFacts) : CategoryAssessment :=
  let module_count := (sys.kernel_modules.getD []).length
  let w := weightOf "kernel_modules"
  if module_count > 100 then
    mkCat 40 w ["High number of kernel modules loaded: " ++ toString module_count]
  else if module_count > 50 then
    mkCat 25 w ["Moderate number of kernel modules: " ++ toString module_count]
  else
    mkCat 10 w ["Standard kernel module count: " ++ toString module_count]

/-- Round a rational to the nearest integer, ties to even
(the rounding used by Python's `round` and `%.Nf` formatting). -/
def roundHalfEven (q : ℚ) : ℤ :=
  if q - (⌊q⌋ : ℚ) < 1 / 2 then ⌊q⌋
  else if 1 / 2 < q - (⌊q⌋ : ℚ) then ⌊q⌋ + 1
  else if ⌊q⌋ % 2 = 0 then ⌊q⌋ else ⌊q⌋ + 1

/-- Model of Python `round(x, 2)` on an exact rational. -/
def pyRound2 (q : ℚ) : ℚ :=
  ((roundHalfEven (q * 100) : ℤ) : ℚ) / 100

/-- Model of rendering a float with `f'{x:.1f}'`, as the rational value
the rendered decimal denotes. -/
def pyRound1 (q : ℚ) : ℚ :=
  ((roundHalfEven (q * 10) : ℤ) : ℚ) / 10

/-- The tier classification chain inside `calculate_overall_risk`:
thresholds checked high to low on the (unrounded) weighted total,
returning `(risk_level, recommendation)`. -/
def classifyRisk (s : ℚ) : String × String :=
  if s ≥ 70 then ("HIGH", "Immediate migration planning required")
  else if s ≥ 50 then ("MEDIUM-HIGH", "Migration should be planned within 6 months")
  else if s ≥ 30 then ("MEDIUM", "Migration can be scheduled in 6-12 months")
  else ("LOW", "System is relatively stable, plan migration at convenience")

/-- Result record of `calculate_overall_risk`. -/
structure OverallRisk where
  overall_score : ℚ
  risk_level : String
  recommendation : String
deriving DecidableEq, Repr

/-- `calculate_overall_risk`: sum the five weighted scores, classify the
total, and round the stored overall score to two decimal places. -/
def calculateOverallRisk (cats : List CategoryAssessment) : OverallRisk :=
  let total_weighted_score := (cats.map (fun c => c.weighted_score)).sum
  let cls := classifyRisk total_weighted_score
  { overall_score := pyRound2 total_weighted_score,
    risk_level := cls.1,
    recommendation := cls.2 }

/-- One host's full assessment record as built by `assess_system`. -/
structure HostAssessment where
  hostname : String
  fqdn : String
  os_family : String
  distribution : String
  distribution_version : String
  assessment_date : String
  overall_risk_score : ℚ
  risk_level : String
  recommendation : String
  os_version : CategoryAssessment
  package_compatibility : CategoryAssessment
  hardware : CategoryAssessment
  services : CategoryAssessment
  kernel_modules : CategoryAssessment
deriving DecidableEq, Repr, Inhabited

/-- `assess_system`. The wall-clock reading `datetime.now().isoformat()`
is passed in as `now`; the `ValueError` that `assess_os_version_risk` can
raise propagates as the error case. -/
def assessSystem (sys : HostFacts) (now : String) : Except String HostAssessment :=
  match assessOsVersionRisk sys with
  | .error e => .error e
  | .ok osCat =>
    let pkgCat := assessPackageCompatibility sys
    let hwCat := assessHardwareRisk sys
    let svcCat := assessServicesRisk sys
    let kmCat := assessKernelModulesRisk sys
    let overall := calculateOverallRisk [osCat, pkgCat, hwCat, svcCat, kmCat]
    let hostname := sys.hostname.getD "unknown"
    .ok
      { hostname := hostname,
        fqdn := sys.fqdn.getD hostname,
        os_family := normalizeOsFamily (sys.os_family.getD "") (sys.distribution.getD ""),
        distribution := sys.distribution.getD "",
        distribution_version := sys.distribution_version.getD "",
        assessment_date := now,
        overall_risk_score := overall.overall_score,
        risk_level := overall.risk_level,
        recommendation := overall.recommendation,
        os_version := osCat,
        package_compatibility := pkgCat,
        hardware := hwCat,
        services := svcCat,
        kernel_modules := kmCat }

/-- The `for system in self.systems` loop of `run_assessment`: assess each
host in order; an uncaught exception from one host aborts the whole loop
(there is no try/except around `assess_system`). -/
def assessSystems (systems : List HostFacts) (now : String) : Except String (List HostAssessment) :=
  match systems with
  | [] => .ok []
  | sys :: rest =>
    match assessSystem sys now with
    | .error e => .error e
    | .ok r =>
      match assessSystems rest now with
      | .error e => .error e
      | .ok rs => .ok (r :: rs)

/-- The timeline bucket chain inside `generate_priority_matrix`,
computed from the row's risk score alone. -/
def timelineOf (risk_score : ℚ) : String :=
  if risk_score ≥ 70 then "Immediate (0-3 months)"
  else if risk_score ≥ 50 then "Short-term (3-6 months)"
  else if risk_score ≥ 30 then "Medium-term (6-12 months)"
  else "Long-term (12+ months)"

/-- One CSV row of the priority matrix. -/
structure PriorityRow where
  priority : Nat
  hostname : String
  distribution : String
  version : String
  risk_level : String
  risk_score : ℚ
  recommended_action : String
  timeline : String
deriving DecidableEq, Repr

/-- The row dict built for position `idx` (1-based) of the sorted results. -/
def rowOf (idx : Nat) (r : HostAssessment) : PriorityRow :=
  { priority := idx,
    hostname := r.hostname,
    distribution := r.distribution,
    version := r.distribution_version,
    risk_level := r.risk_level,
    risk_score := r.overall_risk_score,
    recommended_action := r.recommendation,
    timeline := timelineOf r.overall_risk_score }

/-- `sorted(results, key=lambda x: x.get('overall_risk_score', 0), reverse=True)`:
Python's sort is stable, modelled by `List.mergeSort` with the
descending-score comparison. -/
def priorityOrder (results : List HostAssessment) : List HostAssessment :=
  results.mergeSort (fun a b => decide (b.overall_risk_score ≤ a.overall_risk_score))

/-- `generate_priority_matrix`: the rows written to the CSV, in order. -/
def generatePriorityMatrix (results : List HostAssessment) : List PriorityRow :=
  (priorityOrder results).enum.map (fun p => rowOf (p.1 + 1) p.2)

/-- The four keys of the `risk_levels` tally dict, in insertion order. -/
def riskLevelNames : List String :=
  ["HIGH", "MEDIUM-HIGH", "MEDIUM", "LOW"]

/-- Content of the statistics summary relevant to the risk-level section:
total host count, mean overall score, and one `(level, count, percentage)`
row per fixed tier, the percentage as rendered with `f'{p:.1f}%'`.
The OS-family and distribution breakdowns of the CSV repeat the same
count/percentage computation over other keys and are not modelled. -/
structure StatsReport where
  total_systems : Nat
  avg_risk_score : ℚ
  risk_rows : List (String × Nat × ℚ)
deriving DecidableEq, Repr, Inhabited

/-- `generate_statistics_report`: returns `none` (no file written) for an
empty result list — the `total_systems == 0` guard precedes every division. -/
def generateStatisticsReport (results : List HostAssessment) : Option StatsReport :=
  let total_systems := results.length
  if total_systems = 0 then none
  else
    let counts := riskLevelNames.map
      (fun lv => (lv, (results.filter (fun r => r.risk_level == lv)).length))
    let total_risk_score := (results.map (fun r => r.overall_risk_score)).sum
    some
      { total_systems := total_systems,
        avg_risk_score := total_risk_score / (total_systems : ℚ),
        risk_rows := counts.map
          (fun p => (p.1, p.2, pyRound1 (((p.2 : ℚ) / (total_systems : ℚ)) * 100))) }

end MigrationAssess
namespace MigrationAssess

/-- Host facts that trip the Debian numeric-comparison rule. -/
def badDebian : HostFacts :=
  { hostname := some "deb1", distribution := some "Debian",
    distribution_major_version := some "stretch" }

/-- A well-formed CentOS 7 host. -/
def sampleCentos : HostFacts :=
  { hostname := some "web1", distribution := some "CentOS",
    distribution_major_version := some "7" }

/-- C9: `generate_statistics_report` on an empty result list returns
without producing a report and without reaching any division. -/
theorem c9_emptyStatistics : generateStatisticsReport [] = none := rfl

/-- C1: with a non-numeric Debian major version in the batch, the
`ValueError` from `int(major_version)` propagates out of the assessment
loop: the whole run aborts, even though the remaining CentOS host on its
own assesses fine. -/
theorem c1_nonNumericDebianAbortsBatch :
    assessSystems [badDebian, sampleCentos] "2024-05-01T10:00:00"
      = .error "invalid literal for int() with base 10: stretch" ∧
    (assessSystem sampleCentos "2024-05-01T10:00:00").toOption.isSome = true :=
  ⟨rfl, rfl⟩

/-- C10: a RedHat package line with fewer than three pipe-delimited fields,
or a Debian line with fewer than two, falls through to the
unrecognized-family fallback: whole line as name, version/arch `"unknown"`. -/
theorem c10_packageFallback (line : String) :
    ((pySplit line '|').length < 3 →
      normalizePackageName line "RedHat"
        = { name := line, version := "unknown", arch := "unknown" }) ∧
    ((pySplit line '|').length < 2 →
      normalizePackageName line "Debian"
        = { name := line, version := "unknown", arch := "unknown" }) := by
  constructor
  · intro h
    unfold normalizePackageName
    simp [show ¬((pySplit line '|').length ≥ 3) from by omega]
  · intro h
    unfold normalizePackageName
    simp [show ¬((pySplit line '|').length ≥ 2) from by omega]

theorem c10_packageFallback_witness :
    normalizePackageName "pkg|1.0" "RedHat"
      = { name := "pkg|1.0", version := "unknown", arch := "unknown" } ∧
    normalizePackageName "solo" "Debian"
      = { name := "solo", version := "unknown", arch := "unknown" } :=
  ⟨(c10_packageFallback "pkg|1.0").1 (by decide),
   (c10_packageFallback "solo").2 (by decide)⟩

/-- C4 (counterexample): two runs of `assess_system` on the same host facts
at different wall-clock readings give different records — the
`assessment_date` field records `datetime.now()`. -/
theorem c4_timestampDiffers :
    assessSystem sampleCentos "2024-05-01T10:00:00"
      ≠ assessSystem sampleCentos "2024-05-02T10:00:00" := by
  intro h
  have h2 := congrArg (fun e => (Except.toOption e).map (fun r => r.assessment_date)) h
  exact absurd h2 (by decide)

/-- Erase the timestamp field of an assessment record. -/
def withoutDate (r : HostAssessment) : HostAssessment :=
  { r with assessment_date := "" }

/-- C4 (amended): apart from `assessment_date`, `assess_system` is a
deterministic pure function of the host facts: any two runs agree on
every other field. -/
theorem c4_deterministicModuloDate (sys : HostFacts) (t₁ t₂ : String) :
    (assessSystem sys t₁).map withoutDate = (assessSystem sys t₂).map withoutDate := by
  unfold assessSystem
  cases assessOsVersionRisk sys <;> rfl

/-- Host facts with every field absent. -/
def emptyFacts : HostFacts := {}

/-- C5 (counterexample): a missing `processor_cores` is substituted by 1,
not 0 — the hardware assessment matches the explicit-1 host exactly and
differs from the explicit-0 host (the issue text reports the 1). -/
theorem c5_coresDefaultIsOne :
    assessHardwareRisk { emptyFacts with processor_cores := some 1 }
      = assessHardwareRisk emptyFacts ∧
    assessHardwareRisk { emptyFacts with processor_cores := some 0 }
      ≠ assessHardwareRisk emptyFacts := by
  refine ⟨rfl, fun h => ?_⟩
  have h2 := congrArg (fun c => c.issues) h
  exact absurd h2 (by decide)

/-- C5 (amended): missing `memtotal_mb` defaults to 0 and missing
`processor_cores` defaults to 1 in the hardware rule; every missing list
field defaults to the empty list in its rule. -/
theorem c5_missingFieldDefaults (sys : HostFacts) :
    assessHardwareRisk { sys with memtotal_mb := none }
      = assessHardwareRisk { sys with memtotal_mb := some 0 } ∧
    assessHardwareRisk { sys with processor_cores := none }
      = assessHardwareRisk { sys with processor_cores := some 1 } ∧
    assessPackageCompatibility { sys with packages := none }
      = assessPackageCompatibility { sys with packages := some [] } ∧
    assessServicesRisk { sys with enabled_services := none }
      = assessServicesRisk { sys with enabled_services := some [] } ∧
    assessKernelModulesRisk { sys with kernel_modules := none }
      = assessKernelModulesRisk { sys with kernel_modules := some [] } :=
  ⟨rfl, rfl, rfl, rfl, rfl⟩

/-- The hardware score exactly as the spec words it: additive penalty,
capped at 100, floored to 15 below 30. -/
def hardwareScoreSpec (memory_mb processor_cores : Int) : Int :=
  let penalty :=
    (if memory_mb < 2048 then 40 else if memory_mb < 4096 then 20 else 0)
      + (if processor_cores < 2 then 20 else 0)
  let capped := min 100 penalty
  if capped < 30 then 15 else capped

/-- C8: the hardware score agrees with the spec formula on every input
(with the code's defaults for missing fields), and on the two worked
examples: 1024 MB / 1 core scores 60; 8192 MB / 4 cores is floored to 15. -/
theorem c8_hardwareScore :
    (∀ sys : HostFacts,
      (assessHardwareRisk sys).score
        = hardwareScoreSpec (sys.memtotal_mb.getD 0) (sys.processor_cores.getD 1)) ∧
    (assessHardwareRisk { memtotal_mb := some 1024, processor_cores := some 1 }).score = 60 ∧
    (assessHardwareRisk { memtotal_mb := some 8192, processor_cores := some 4 }).score = 15 := by
  refine ⟨fun sys => ?_, by decide, by decide⟩
  unfold assessHardwareRisk hardwareScoreSpec mkCat
  by_cases h1 : sys.memtotal_mb.getD 0 < 2048 <;>
    by_cases h2 : sys.memtotal_mb.getD 0 < 4096 <;>
    by_cases h3 : sys.processor_cores.getD 1 < 2 <;>
    simp [h1, h2, h3]

end MigrationAssess
namespace MigrationAssess

/-- Well-formedness of one category result: score in `[0, 100]`, the
category's fixed weight, and the stored weighted score derived as
`score*weight/100`. -/
def catWF (cat : CategoryAssessment) (w : Int) : Prop :=
  0 ≤ cat.score ∧ cat.score ≤ 100 ∧ cat.weight = w ∧
    cat.weighted_score = ((cat.score * cat.weight : Int) : ℚ) / 100

lemma mkCat_catWF {s w : Int} {iss : List String} (h0 : 0 ≤ s) (h1 : s ≤ 100) :
    catWF (mkCat s w iss) w :=
  ⟨h0, h1, rfl, rfl⟩

lemma osVersionRisk_catWF {sys : HostFacts} {cat : CategoryAssessment}
    (h : assessOsVersionRisk sys = .ok cat) : catWF cat 30 := by
  unfold assessOsVersionRisk at h
  dsimp only [] at h
  split_ifs at h
  case _ => cases h; exact mkCat_catWF (by norm_num) (by norm_num)
  case _ => cases h; exact mkCat_catWF (by norm_num) (by norm_num)
  case _ => cases h; exact mkCat_catWF (by norm_num) (by norm_num)
  case _ =>
    rcases hp : pyInt? (sys.distribution_major_version.getD "") with _ | n <;>
      rw [hp] at h <;> dsimp only [] at h
    · exact absurd h (by simp)
    · split_ifs at h <;> (cases h; exact mkCat_catWF (by norm_num) (by norm_num))
  case _ => cases h; exact mkCat_catWF (by norm_num) (by norm_num)

lemma packageCompatibility_catWF (sys : HostFacts) :
    catWF (assessPackageCompatibility sys) 25 := by
  unfold assessPackageCompatibility
  dsimp only []
  split
  · exact mkCat_catWF (by norm_num) (by norm_num)
  · refine mkCat_catWF (le_min (by norm_num) (by positivity)) (min_le_left _ _)

lemma hardwareRisk_catWF (sys : HostFacts) :
    catWF (assessHardwareRisk sys) 20 := by
  unfold assessHardwareRisk
  dsimp only []
  refine mkCat_catWF ?_ ?_ <;> split_ifs <;> simp_all

lemma servicesRisk_catWF (sys : HostFacts) :
    catWF (assessServicesRisk sys) 15 := by
  unfold assessServicesRisk
  dsimp only []
  split
  · exact mkCat_catWF (by norm_num) (by norm_num)
  · refine mkCat_catWF (le_min (by norm_num) (by positivity)) (min_le_left _ _)

lemma kernelModulesRisk_catWF (sys : HostFacts) :
    catWF (assessKernelModulesRisk sys) 10 := by
  unfold assessKernelModulesRisk
  dsimp only []
  split_ifs <;> exact mkCat_catWF (by norm_num) (by norm_num)

/-- The weighted total of the five categories, in summation order. -/
def totalWeighted (os pkg hw svc km : CategoryAssessment) : ℚ :=
  os.weighted_score + pkg.weighted_score + hw.weighted_score
    + svc.weighted_score + km.weighted_score

lemma sum_five (a b c d e : CategoryAssessment) :
    (List.map (fun cat => cat.weighted_score) [a, b, c, d, e]).sum
      = totalWeighted a b c d e := by
  simp [totalWeighted]
  ring

lemma assessSystem_ok_inv {sys : HostFacts} {now : String} {res : HostAssessment}
    (h : assessSystem sys now = .ok res) :
    assessOsVersionRisk sys = .ok res.os_version ∧
    res.package_compatibility = assessPackageCompatibility sys ∧
    res.hardware = assessHardwareRisk sys ∧
    res.services = assessServicesRisk sys ∧
    res.kernel_modules = assessKernelModulesRisk sys ∧
    res.overall_risk_score
      = pyRound2 (totalWeighted res.os_version res.package_compatibility
          res.hardware res.services res.kernel_modules) ∧
    res.risk_level
      = (classifyRisk (totalWeighted res.os_version res.package_compatibility
          res.hardware res.services res.kernel_modules)).1 ∧
    res.recommendation
      = (classifyRisk (totalWeighted res.os_version res.package_compatibility
          res.hardware res.services res.kernel_modules)).2 := by
  unfold assessSystem at h
  cases hos : assessOsVersionRisk sys with
  | error e => rw [hos] at h; exact absurd h (by simp)
  | ok osCat =>
    rw [hos] at h
    simp only [Except.ok.injEq] at h
    subst h
    refine ⟨rfl, rfl, rfl, rfl, rfl, ?_, ?_, ?_⟩ <;>
      (unfold calculateOverallRisk; dsimp only []; rw [sum_five])

lemma totalWeighted_wf {os pkg hw svc km : CategoryAssessment}
    (hos : catWF os 30) (hpkg : catWF pkg 25) (hhw : catWF hw 20)
    (hsvc : catWF svc 15) (hkm : catWF km 10) :
    totalWeighted os pkg hw svc km
      = ((30 * os.score + 25 * pkg.score + 20 * hw.score
          + 15 * svc.score + 10 * km.score : Int) : ℚ) / 100 := by
  unfold totalWeighted
  rw [hos.2.2.2, hpkg.2.2.2, hhw.2.2.2, hsvc.2.2.2, hkm.2.2.2,
      hos.2.2.1, hpkg.2.2.1, hhw.2.2.1, hsvc.2.2.1, hkm.2.2.1]
  push_cast
  ring

lemma pyRound2_int_div (n : ℤ) : pyRound2 ((n : ℚ) / 100) = (n : ℚ) / 100 := by
  unfold pyRound2 roundHalfEven
  have h : ((n : ℚ) / 100) * 100 = (n : ℚ) := by field_simp
  rw [h, Int.floor_intCast]
  norm_num

/-- `sampleCentos` assessed at a fixed clock reading. -/
def sampleResult : HostAssessment :=
  ((assessSystem sampleCentos "2024-05-01T10:00:00").toOption).getD default

/-- C2: the five weights sum to 100; on every completed assessment each
category satisfies `catWF` (score in `[0,100]`, fixed weight, weighted
score `score*weight/100`), the overall score is the two-decimal rounding
of the weighted sum, and it lies in `[0, 100]`. -/
theorem c2_overallScoreInvariant :
    ((WEIGHTS.map (fun p => p.2)).sum = 100) ∧
    ∀ (sys : HostFacts) (now : String) (res : HostAssessment),
      assessSystem sys now = .ok res →
      (catWF res.os_version 30 ∧ catWF res.package_compatibility 25 ∧
        catWF res.hardware 20 ∧ catWF res.services 15 ∧ catWF res.kernel_modules 10) ∧
      res.overall_risk_score
        = pyRound2 (((res.os_version.score * res.os_version.weight : Int) : ℚ) / 100
            + ((res.package_compatibility.score * res.package_compatibility.weight : Int) : ℚ) / 100
            + ((res.hardware.score * res.hardware.weight : Int) : ℚ) / 100
            + ((res.services.score * res.services.weight : Int) : ℚ) / 100
            + ((res.kernel_modules.score * res.kernel_modules.weight : Int) : ℚ) / 100) ∧
      0 ≤ res.overall_risk_score ∧ res.overall_risk_score ≤ 100 := by
  refine ⟨by decide, fun sys now res h => ?_⟩
  obtain ⟨hos, hpkg, hhw, hsvc, hkm, hoverall, hlevel, hrec⟩ := assessSystem_ok_inv h
  have wos := osVersionRisk_catWF hos
  have wpkg : catWF res.package_compatibility 25 := hpkg ▸ packageCompatibility_catWF sys
  have whw : catWF res.hardware 20 := hhw ▸ hardwareRisk_catWF sys
  have wsvc : catWF res.services 15 := hsvc ▸ servicesRisk_catWF sys
  have wkm : catWF res.kernel_modules 10 := hkm ▸ kernelModulesRisk_catWF sys
  have htot := totalWeighted_wf wos wpkg whw wsvc wkm
  refine ⟨⟨wos, wpkg, whw, wsvc, wkm⟩, ?_, ?_⟩
  · rw [hoverall]
    unfold totalWeighted
    rw [wos.2.2.2, wpkg.2.2.2, whw.2.2.2, wsvc.2.2.2, wkm.2.2.2]
  · have hb : (0 : Int) ≤ 30 * res.os_version.score + 25 * res.package_compatibility.score
        + 20 * res.hardware.score + 15 * res.services.score + 10 * res.kernel_modules.score ∧
        30 * res.os_version.score + 25 * res.package_compatibility.score
        + 20 * res.hardware.score + 15 * res.services.score + 10 * res.kernel_modules.score ≤ 10000 := by
      obtain ⟨a0, a1, -, -⟩ := wos
      obtain ⟨b0, b1, -, -⟩ := wpkg
      obtain ⟨c0, c1, -, -⟩ := whw
      obtain ⟨d0, d1, -, -⟩ := wsvc
      obtain ⟨e0, e1, -, -⟩ := wkm
      omega
    rw [hoverall, htot, pyRound2_int_div]
    constructor
    · exact div_nonneg (by exact_mod_cast hb.1) (by norm_num)
    · rw [div_le_iff₀ (by norm_num : (0:ℚ) < 100)]
      have h2 : ((30 * res.os_version.score + 25 * res.package_compatibility.score
          + 20 * res.hardware.score + 15 * res.services.score
          + 10 * res.kernel_modules.score : Int) : ℚ) ≤ 10000 := by
        exact_mod_cast hb.2
      linarith

theorem c2_overallScoreInvariant_witness :
    0 ≤ sampleResult.overall_risk_score ∧ sampleResult.overall_risk_score ≤ 100 :=
  (c2_overallScoreInvariant.2 sampleCentos "2024-05-01T10:00:00" sampleResult rfl).2.2

/-- Numeric rank of a risk tier, for stating monotonicity. -/
def tierRank (lv : String) : Nat :=
  if lv = "HIGH" then 3
  else if lv = "MEDIUM-HIGH" then 2
  else if lv = "MEDIUM" then 1
  else 0

/-- C3: the tier thresholds are evaluated high to low with first match
winning, with the exact tier names and recommendation strings; the tier is
monotone in the score; and on every completed assessment the stored
`risk_level`/`recommendation` are exactly `classifyRisk` of the stored
`overall_risk_score`. -/
theorem c3_riskTierThresholds :
    (∀ s : ℚ, 70 ≤ s →
      classifyRisk s = ("HIGH", "Immediate migration planning required")) ∧
    (∀ s : ℚ, 50 ≤ s → s < 70 →
      classifyRisk s = ("MEDIUM-HIGH", "Migration should be planned within 6 months")) ∧
    (∀ s : ℚ, 30 ≤ s → s < 50 →
      classifyRisk s = ("MEDIUM", "Migration can be scheduled in 6-12 months")) ∧
    (∀ s : ℚ, s < 30 →
      classifyRisk s = ("LOW", "System is relatively stable, plan migration at convenience")) ∧
    (∀ s₁ s₂ : ℚ, s₁ ≤ s₂ → tierRank (classifyRisk s₁).1 ≤ tierRank (classifyRisk s₂).1) ∧
    (∀ (sys : HostFacts) (now : String) (res : HostAssessment),
      assessSystem sys now = .ok res →
      res.risk_level = (classifyRisk res.overall_risk_score).1 ∧
      res.recommendation = (classifyRisk res.overall_risk_score).2) := by
  refine ⟨?_, ?_, ?_, ?_, ?_, ?_⟩
  · intro s hs
    unfold classifyRisk
    rw [if_pos (by linarith)]
  · intro s hs1 hs2
    unfold classifyRisk
    rw [if_neg (by linarith), if_pos (by linarith)]
  · intro s hs1 hs2
    unfold classifyRisk
    rw [if_neg (by linarith), if_neg (by linarith), if_pos (by linarith)]
  · intro s hs
    unfold classifyRisk
    rw [if_neg (by linarith), if_neg (by linarith), if_neg (by linarith)]
  · intro s₁ s₂ hle
    have hrank : ∀ s : ℚ, tierRank (classifyRisk s).1
        = if 70 ≤ s then 3 else if 50 ≤ s then 2 else if 30 ≤ s then 1 else 0 := by
      intro s
      unfold classifyRisk tierRank
      split_ifs <;> simp_all
    rw [hrank, hrank]
    split_ifs <;> first | omega | linarith
  · intro sys now res h
    obtain ⟨hos, hpkg, hhw, hsvc, hkm, hoverall, hlevel, hrec⟩ := assessSystem_ok_inv h
    have wos := osVersionRisk_catWF hos
    have wpkg : catWF res.package_compatibility 25 := hpkg ▸ packageCompatibility_catWF sys
    have whw : catWF res.hardware 20 := hhw ▸ hardwareRisk_catWF sys
    have wsvc : catWF res.services 15 := hsvc ▸ servicesRisk_catWF sys
    have wkm : catWF res.kernel_modules 10 := hkm ▸ kernelModulesRisk_catWF sys
    have htot := totalWeighted_wf wos wpkg whw wsvc wkm
    have hexact : res.overall_risk_score
        = totalWeighted res.os_version res.package_compatibility res.hardware
            res.services res.kernel_modules := by
      rw [hoverall, htot, pyRound2_int_div, ← htot]
    rw [hexact, hlevel, hrec]
    exact ⟨rfl, rfl⟩

theorem c3_riskTierThresholds_witness :
    classifyRisk 80 = ("HIGH", "Immediate migration planning required") ∧
    tierRank (classifyRisk 20).1 ≤ tierRank (classifyRisk 80).1 ∧
    sampleResult.risk_level = (classifyRisk sampleResult.overall_risk_score).1 :=
  ⟨c3_riskTierThresholds.1 80 (by norm_num),
   c3_riskTierThresholds.2.2.2.2.1 20 80 (by norm_num),
   (c3_riskTierThresholds.2.2.2.2.2 sampleCentos "2024-05-01T10:00:00" sampleResult rfl).1⟩

end MigrationAssess
namespace MigrationAssess

lemma roundHalfEven_err (q : ℚ) : |((roundHalfEven q : ℤ) : ℚ) - q| ≤ 1 / 2 := by
  have hf : ((⌊q⌋ : ℤ) : ℚ) ≤ q := Int.floor_le q
  have hf2 : q < ((⌊q⌋ : ℤ) : ℚ) + 1 := Int.lt_floor_add_one q
  unfold roundHalfEven
  split_ifs <;> rw [abs_le] <;> constructor <;> push_cast <;> linarith

lemma pyRound1_err (q : ℚ) : |pyRound1 q - q| ≤ 1 / 20 := by
  have h := roundHalfEven_err (q * 10)
  unfold pyRound1
  have heq : ((roundHalfEven (q * 10) : ℤ) : ℚ) / 10 - q
      = (((roundHalfEven (q * 10) : ℤ) : ℚ) - q * 10) / 10 := by ring
  rw [heq, abs_div, abs_of_pos (show (0:ℚ) < 10 by norm_num)]
  linarith [h]

lemma fourLevelCount (l : List HostAssessment)
    (h : ∀ r ∈ l, r.risk_level ∈ riskLevelNames) :
    (l.filter (fun r => r.risk_level == "HIGH")).length
      + (l.filter (fun r => r.risk_level == "MEDIUM-HIGH")).length
      + (l.filter (fun r => r.risk_level == "MEDIUM")).length
      + (l.filter (fun r => r.risk_level == "LOW")).length = l.length := by
  induction l with
  | nil => simp
  | cons r t ih =>
    have hr : r.risk_level ∈ riskLevelNames := h r (List.mem_cons_self r t)
    have ht := ih (fun x hx => h x (List.mem_cons_of_mem r hx))
    simp only [riskLevelNames, List.mem_cons, List.not_mem_nil, or_false] at hr
    rcases hr with h1 | h1 | h1 | h1 <;>
      simp only [List.filter_cons, h1, List.length_cons] <;>
      simp <;> omega

lemma statsReport_of_ne {l : List HostAssessment} (h : ¬l.length = 0) :
    generateStatisticsReport l = some
      { total_systems := l.length,
        avg_risk_score := (l.map (fun r => r.overall_risk_score)).sum / (l.length : ℚ),
        risk_rows := riskLevelNames.map (fun lv =>
          (lv, (l.filter (fun r => r.risk_level == lv)).length,
            pyRound1 ((((l.filter (fun r => r.risk_level == lv)).length : ℚ)
              / (l.length : ℚ)) * 100))) } := by
  unfold generateStatisticsReport
  dsimp only []
  rw [if_neg h]
  simp [List.map_map]

end MigrationAssess

namespace MigrationAssess

/-- A minimal assessment record carrying only a risk level
(the statistics tally reads nothing else besides the score). -/
def stubAssessment (lv : String) : HostAssessment :=
  { hostname := "", fqdn := "", os_family := "", distribution := "",
    distribution_version := "", assessment_date := "", overall_risk_score := 0,
    risk_level := lv, recommendation := "",
    os_version := mkCat 0 0 [], package_compatibility := mkCat 0 0 [],
    hardware := mkCat 0 0 [], services := mkCat 0 0 [],
    kernel_modules := mkCat 0 0 [] }

/-- 16 hosts split 3/3/3/7 across the tiers: every percentage lands
exactly on a rounding tie that resolves upward. -/
def c6input : List HostAssessment :=
  List.replicate 3 (stubAssessment "HIGH")
    ++ List.replicate 3 (stubAssessment "MEDIUM-HIGH")
    ++ List.replicate 3 (stubAssessment "MEDIUM")
    ++ List.replicate 7 (stubAssessment "LOW")

/-- C6 (counterexample): for 16 hosts split 3/3/3/7, the rendered
percentages are 18.8, 18.8, 18.8 and 43.8, summing to 100.2 — off by
0.2, outside the claimed 0.1 tolerance. -/
theorem c6_percentSumCounterexample :
    (generateStatisticsReport c6input).map
        (fun rep => (rep.risk_rows.map (fun row => row.2.2)).sum)
      = some (501 / 5) ∧
    ¬(|(501 : ℚ) / 5 - 100| ≤ 1 / 10) := by
  constructor
  · rw [statsReport_of_ne (by decide)]
    have h1 : (c6input.filter (fun r => r.risk_level == "HIGH")).length = 3 := by decide
    have h2 : (c6input.filter (fun r => r.risk_level == "MEDIUM-HIGH")).length = 3 := by decide
    have h3 : (c6input.filter (fun r => r.risk_level == "MEDIUM")).length = 3 := by decide
    have h4 : (c6input.filter (fun r => r.risk_level == "LOW")).length = 7 := by decide
    have hlen : c6input.length = 16 := by decide
    simp only [riskLevelNames, List.map_cons, List.map_nil, List.sum_cons, List.sum_nil,
      h1, h2, h3, h4, hlen, Option.map_some]
    norm_num [pyRound1, roundHalfEven]
  · intro hc
    rw [abs_le] at hc
    linarith [hc.2]

/-- C6 (amended): for a non-empty result list whose tiers are all among
the four fixed names, the rendered per-tier percentages sum to 100 within
0.2 (each of the four one-decimal renderings can be off by at most 0.05). -/
theorem c6_percentSumWithinTwoTenths :
    ∀ (l : List HostAssessment) (rep : StatsReport),
      (∀ r ∈ l, r.risk_level ∈ riskLevelNames) →
      generateStatisticsReport l = some rep →
      |(rep.risk_rows.map (fun row => row.2.2)).sum - 100| ≤ 1 / 5 := by
  intro l rep hlv h
  have hne : ¬l.length = 0 := by
    intro h0
    rw [generateStatisticsReport] at h
    dsimp only [] at h
    rw [if_pos h0] at h
    exact absurd h (by simp)
  rw [statsReport_of_ne hne] at h
  cases h
  simp only [riskLevelNames, List.map_cons, List.map_nil, List.sum_cons, List.sum_nil]
  have hnpos : (0:ℚ) < (l.length : ℚ) := by
    have : 0 < l.length := Nat.pos_of_ne_zero hne
    exact_mod_cast this
  have hcount := fourLevelCount l hlv
  set cH := (l.filter (fun r => r.risk_level == "HIGH")).length with hcH
  set cMH := (l.filter (fun r => r.risk_level == "MEDIUM-HIGH")).length with hcMH
  set cM := (l.filter (fun r => r.risk_level == "MEDIUM")).length with hcM
  set cL := (l.filter (fun r => r.risk_level == "LOW")).length with hcL
  have hsum : (cH : ℚ) / (l.length : ℚ) * 100 + (cMH : ℚ) / (l.length : ℚ) * 100
      + (cM : ℚ) / (l.length : ℚ) * 100 + (cL : ℚ) / (l.length : ℚ) * 100 = 100 := by
    have hc : ((cH : ℚ) + cMH + cM + cL) = (l.length : ℚ) := by exact_mod_cast hcount
    field_simp
    linarith
  have e1 := pyRound1_err ((cH : ℚ) / (l.length : ℚ) * 100)
  have e2 := pyRound1_err ((cMH : ℚ) / (l.length : ℚ) * 100)
  have e3 := pyRound1_err ((cM : ℚ) / (l.length : ℚ) * 100)
  have e4 := pyRound1_err ((cL : ℚ) / (l.length : ℚ) * 100)
  rw [abs_le] at e1 e2 e3 e4 ⊢
  constructor <;> [linarith [e1.1, e2.1, e3.1, e4.1]; linarith [e1.2, e2.2, e3.2, e4.2]]

/-- One HIGH-tier host, for exercising the percentage-sum bound. -/
def c6witnessInput : List HostAssessment := [stubAssessment "HIGH"]

/-- The statistics report for that single host. -/
def c6witnessReport : StatsReport :=
  (generateStatisticsReport c6witnessInput).getD default

theorem c6_percentSumWithinTwoTenths_witness :
    |(c6witnessReport.risk_rows.map (fun row => row.2.2)).sum - 100| ≤ 1 / 5 :=
  c6_percentSumWithinTwoTenths c6witnessInput c6witnessReport (by decide) rfl

end MigrationAssess
namespace MigrationAssess

lemma scoreLE_trans : ∀ a b c : HostAssessment,
    decide (b.overall_risk_score ≤ a.overall_risk_score) = true →
    decide (c.overall_risk_score ≤ b.overall_risk_score) = true →
    decide (c.overall_risk_score ≤ a.overall_risk_score) = true := by
  intro a b c hab hbc
  simp only [decide_eq_true_eq] at hab hbc ⊢
  exact le_trans hbc hab

lemma scoreLE_total : ∀ a b : HostAssessment,
    (decide (b.overall_risk_score ≤ a.overall_risk_score)
      || decide (a.overall_risk_score ≤ b.overall_risk_score)) = true := by
  intro a b
  simp only [Bool.or_eq_true, decide_eq_true_eq]
  exact le_total _ _

lemma matrixScores (l : List HostAssessment) :
    (generatePriorityMatrix l).map (fun row => row.risk_score)
      = (priorityOrder l).map (fun r => r.overall_risk_score) := by
  unfold generatePriorityMatrix
  rw [List.map_map]
  conv_rhs => rw [← List.enum_map_snd (priorityOrder l), List.map_map]
  rfl

lemma matrixPriorities (l : List HostAssessment) :
    (generatePriorityMatrix l).map (fun row => row.priority)
      = (List.range l.length).map (fun i => i + 1) := by
  unfold generatePriorityMatrix
  rw [List.map_map]
  have hcomp : (List.enum (priorityOrder l)).map
        ((fun row => row.priority) ∘ (fun p => rowOf (p.1 + 1) p.2))
      = (List.enum (priorityOrder l)).map ((fun i => i + 1) ∘ Prod.fst) := rfl
  rw [hcomp, ← List.map_map, List.enum_map_fst]
  congr 1
  simp [priorityOrder]

/-- C7: the priority matrix lists the input records in descending order of
`overall_risk_score`: row scores are pairwise descending, the underlying
order is a permutation of the input that is stable (records with any given
score keep their input order), the Priority column is the 1-based rank,
each row's Timeline is computed from that row's score by the four
thresholds, and changing a record's stored `risk_level` cannot change its
Timeline. -/
theorem c7_priorityMatrix (l : List HostAssessment) :
    List.Pairwise (fun a b : ℚ => b ≤ a)
      ((generatePriorityMatrix l).map (fun row => row.risk_score)) ∧
    (priorityOrder l).Perm l ∧
    (∀ q : ℚ, (priorityOrder l).filter (fun r => decide (r.overall_risk_score = q))
      = l.filter (fun r => decide (r.overall_risk_score = q))) ∧
    generatePriorityMatrix l = (priorityOrder l).enum.map (fun p => rowOf (p.1 + 1) p.2) ∧
    (generatePriorityMatrix l).map (fun row => row.priority)
      = (List.range l.length).map (fun i => i + 1) ∧
    (∀ row ∈ generatePriorityMatrix l, row.timeline = timelineOf row.risk_score) ∧
    (∀ (r : HostAssessment) (idx : Nat) (lv : String),
      (rowOf idx { r with risk_level := lv }).timeline = (rowOf idx r).timeline) := by
  refine ⟨?_, ?_, ?_, rfl, matrixPriorities l, ?_, fun r idx lv => rfl⟩
  · rw [matrixScores]
    refine List.pairwise_map.mpr ?_
    have hs := @List.sorted_mergeSort HostAssessment
      (fun a b : HostAssessment => decide (b.overall_risk_score ≤ a.overall_risk_score))
      scoreLE_trans scoreLE_total l
    exact hs.imp (fun h => by simpa using h)
  · exact List.mergeSort_perm l _
  · intro q
    have hpw : (l.filter (fun r => decide (r.overall_risk_score = q))).Pairwise
        (fun a b => decide (b.overall_risk_score ≤ a.overall_risk_score) = true) := by
      apply List.pairwise_of_forall_mem_list
      intro a ha b hb
      have ha2 : a.overall_risk_score = q := by
        simpa using (List.mem_filter.mp ha).2
      have hb2 : b.overall_risk_score = q := by
        simpa using (List.mem_filter.mp hb).2
      simp [ha2, hb2]
    have hsub := List.sublist_mergeSort scoreLE_trans scoreLE_total hpw
      (List.filter_sublist l)
    have hff : (l.filter (fun r => decide (r.overall_risk_score = q))).filter
          (fun r => decide (r.overall_risk_score = q))
        = l.filter (fun r => decide (r.overall_risk_score = q)) := by
      rw [List.filter_filter]
      simp
    have hsub2 : (l.filter (fun r => decide (r.overall_risk_score = q))).Sublist
        ((priorityOrder l).filter (fun r => decide (r.overall_risk_score = q))) := by
      have h2 := hsub.filter (fun r => decide (r.overall_risk_score = q))
      rwa [hff] at h2
    have hperm : ((priorityOrder l).filter (fun r => decide (r.overall_risk_score = q))).Perm
        (l.filter (fun r => decide (r.overall_risk_score = q))) :=
      (List.mergeSort_perm l _).filter _
    exact (hsub2.eq_of_length hperm.length_eq.symm).symm
  · intro row hrow
    unfold generatePriorityMatrix at hrow
    obtain ⟨pr, hpr, rfl⟩ := List.mem_map.mp hrow
    rfl

/-- A stub record with a given hostname and score. -/
def stubScored (h : String) (q : ℚ) : HostAssessment :=
  { stubAssessment "LOW" with hostname := h, overall_risk_score := q }

/-- Three hosts with a score tie between the first and third. -/
def c7witnessInput : List HostAssessment :=
  [stubScored "a" 50, stubScored "b" 80, stubScored "c" 50]

theorem c7_priorityMatrix_witness :
    (priorityOrder c7witnessInput).filter (fun r => decide (r.overall_risk_score = 50))
        = c7witnessInput.filter (fun r => decide (r.overall_risk_score = 50)) ∧
    (rowOf 1 { stubScored "a" 50 with risk_level := "HIGH" }).timeline
        = (rowOf 1 (stubScored "a" 50)).timeline :=
  ⟨(c7_priorityMatrix c7witnessInput).2.2.1 50,
   (c7_priorityMatrix c7witnessInput).2.2.2.2.2.2 (stubScored "a" 50) 1 "HIGH"⟩

end MigrationAssess
